import Mathlib

/-!
Shallow embedding of the ledger aggregation and persistence engine of
`src/isk/db/character.go` (package `db`): the character row model, the
affiliation binder, the donation/contract total accumulator and the batch
commit orchestrator.

Embedding conventions:
* Go `int32`/`int64` become `Int` (no overflow is relevant to the claims).
* Go `float64` monetary amounts become `ℚ` (exact arithmetic).
* Go `time.Time` becomes `Int`; `t1.Before(t2)` is `t1 < t2`; the `time.Time`
  zero value is `0` (`IsZero` is `= 0`).
* `pq.NullTime` becomes the `NullTime` structure below.
* The durable store is a parameter `store : Int → Except DBError CharacterRow`;
  a `Go` call that can fail is a function returning `Except`/`Option`.
* The abrupt process termination in `getAffiliation` (the `should never
  happen` branch) is embedded as `Option.none` propagated to the caller.
-/

/-- Embedding of `pq.NullTime`: a timestamp together with its validity flag. -/
structure NullTime where
  time : Int
  valid : Bool
  deriving DecidableEq, Repr

/-- Embedding of `CharacterRow` (character.go, `db:"..."` struct): the
character as stored in the characters table. -/
structure CharacterRow where
  id : Int
  corporationID : Int
  allianceID : Int
  received : Int
  receivedISK : ℚ
  received30 : Int
  receivedISK30 : ℚ
  donated : Int
  donatedISK : ℚ
  donated30 : Int
  donatedISK30 : ℚ
  lastDonated : NullTime
  lastReceived : NullTime
  goodStanding : Bool
  deriving DecidableEq, Repr

/-- Embedding of `Character` (character.go): the read-facing output format.
Display names are filled in by the out-of-scope name resolver
(`getCharacterNames`); its timestamps are plain `time.Time` values whose zero
value `0` encodes absence. -/
structure Character where
  id : Int
  name : String
  corporationID : Int
  corporationName : String
  allianceID : Int
  allianceName : String
  received : Int
  receivedISK : ℚ
  received30 : Int
  receivedISK30 : ℚ
  donated : Int
  donatedISK : ℚ
  donated30 : Int
  donatedISK30 : ℚ
  lastDonated : Int
  lastReceived : Int
  goodStanding : Bool
  deriving DecidableEq, Repr

/-- The `Donation` event. Its Go declaration is not under `src/`; the fields
are taken from their uses in character.go (`donation.Donator`,
`donation.Recipient`, `donation.Amount`, `donation.Timestamp`) and from §3 of
the design document (amount is a monetary value, timestamp is when the
transfer occurred). -/
structure Donation where
  donator : Int
  recipient : Int
  amount : ℚ
  timestamp : Int
  deriving DecidableEq, Repr

/-- The `Contract` event. Its Go declaration is not under `src/`; the fields
`Donator`, `Receiver` and `Accepted` are taken from their uses in
character.go, and `amount`/`timestamp` from §3 of the design document (same
shape as a donation, plus the acceptance flag). -/
structure Contract where
  donator : Int
  receiver : Int
  amount : ℚ
  timestamp : Int
  accepted : Bool
  deriving DecidableEq, Repr

/-- Embedding of `Name` (declared outside `src/`): only the numeric ID and
display name are ever used by character.go. -/
structure Name where
  id : Int
  name : String
  deriving DecidableEq, Repr

/-- Embedding of `Affiliation` (character.go): links a character with a
corporation and maybe an alliance. -/
structure Affiliation where
  character : Name
  corporation : Name
  alliance : Option Name
  deriving DecidableEq, Repr

/-- Modelled from the spec: the helper `round2` called by `toCharacter` is
not under `src/`; §4.1 and §6 of the design document say monetary sums are
rounded to 2 decimal places on the read-facing projection. Embedded as
rounding to the nearest hundredth. -/
def round2 (q : ℚ) : ℚ := (round (q * 100) : ℤ) / 100

/-- Embedding of `(*CharacterRow).toCharacter` (character.go): monetary sums
go through `round2`; a timestamp is copied only when its `Valid` flag is set
(otherwise the Character keeps the zero time); name fields are left at the Go
zero value (they are filled in later by `getCharacterNames`). -/
def CharacterRow.toCharacter (c : CharacterRow) : Character :=
  { id := c.id
    name := ""
    corporationID := c.corporationID
    corporationName := ""
    allianceID := c.allianceID
    allianceName := ""
    received := c.received
    receivedISK := round2 c.receivedISK
    received30 := c.received30
    receivedISK30 := round2 c.receivedISK30
    donated := c.donated
    donatedISK := round2 c.donatedISK
    donated30 := c.donated30
    donatedISK30 := round2 c.donatedISK30
    lastDonated := if c.lastDonated.valid then c.lastDonated.time else 0
    lastReceived := if c.lastReceived.valid then c.lastReceived.time else 0
    goodStanding := c.goodStanding }

/-- Embedding of `(*Character).toRow` (character.go): timestamps become
nullable, `Valid` exactly when the time is not the zero value; monetary sums
are copied as-is. -/
def Character.toRow (c : Character) : CharacterRow :=
  { id := c.id
    corporationID := c.corporationID
    allianceID := c.allianceID
    received := c.received
    receivedISK := c.receivedISK
    received30 := c.received30
    receivedISK30 := c.receivedISK30
    donated := c.donated
    donatedISK := c.donatedISK
    donated30 := c.donated30
    donatedISK30 := c.donatedISK30
    lastDonated := { time := c.lastDonated, valid := c.lastDonated != 0 }
    lastReceived := { time := c.lastReceived, valid := c.lastReceived != 0 }
    goodStanding := c.goodStanding }

/-- The Go zero value of `CharacterRow`; `&CharacterRow{ID: charID}` in
`bindAffiliation` is this with the `id` field set. -/
def emptyCharacterRow : CharacterRow :=
  { id := 0
    corporationID := 0
    allianceID := 0
    received := 0
    receivedISK := 0
    received30 := 0
    receivedISK30 := 0
    donated := 0
    donatedISK := 0
    donated30 := 0
    donatedISK30 := 0
    lastDonated := { time := 0, valid := false }
    lastReceived := { time := 0, valid := false }
    goodStanding := false }

/-- Errors of the durable store as seen through `GetCharacter`:
`notFound` is the `character not found` error of `scanCharacterRow`;
`failure` stands for any other storage error (query failure, scan failure,
name lookup failure). -/
inductive DBError where
  | notFound
  | failure
  deriving DecidableEq, Repr

/-- Embedding of `GetCharacter` (character.go): reads the stored row (any of
the query/scan/name sub-steps may fail) and converts it with `toCharacter`
inside `getCharacterNames`; the display names resolved there come from the
out-of-scope name resolver and are omitted. -/
def GetCharacter (store : Int → Except DBError CharacterRow) (charID : Int) :
    Except DBError Character :=
  match store charID with
  | .error e => .error e
  | .ok row => .ok row.toCharacter

/-- Embedding of `getAffiliation` (character.go): linear scan of the supplied
affiliations for the first one whose character ID matches; the source aborts
the whole process when no match exists (`this should never happen`), embedded
as `none`. -/
def getAffiliation (charID : Int) (affiliations : List Affiliation) :
    Option Affiliation :=
  match affiliations with
  | [] => none
  | aff :: rest =>
      if aff.character.id = charID then some aff
      else getAffiliation charID rest

/-- Embedding of `bindAffiliation` (character.go): resolves the affiliation
(aborting if absent), loads the character from the store — any load error
makes the row new and zero-valued — then overwrites the corporation ID, and
the alliance ID when an alliance is supplied. -/
def bindAffiliation (store : Int → Except DBError CharacterRow) (charID : Int)
    (affiliations : List Affiliation) : Option (CharacterRow × Bool) :=
  match getAffiliation charID affiliations with
  | none => none
  | some aff =>
      let base :=
        match GetCharacter store charID with
        | .error _ => ({ emptyCharacterRow with id := charID }, true)
        | .ok char => (char.toRow, false)
      let row := { base.1 with corporationID := aff.corporation.id }
      let row :=
        match aff.alliance with
        | some alliance => { row with allianceID := alliance.id }
        | none => row
      some (row, base.2)

/-- The body of the per-character loop of `addToTotals` (character.go): a
matching donator gets the donated-side counters incremented and its
last-donated timestamp advanced when the event is later (or the stored value
absent); otherwise a matching recipient gets the mirrored received-side
updates. -/
def addToTotalsRow (donation : Donation) (char : CharacterRow) : CharacterRow :=
  if char.id = donation.donator then
    { char with
        donatedISK := char.donatedISK + donation.amount
        donated := char.donated + 1
        donatedISK30 := char.donatedISK30 + donation.amount
        donated30 := char.donated30 + 1
        lastDonated :=
          if char.lastDonated.valid = false ∨
              char.lastDonated.time < donation.timestamp then
            { time := donation.timestamp, valid := true }
          else char.lastDonated }
  else if char.id = donation.recipient then
    { char with
        receivedISK := char.receivedISK + donation.amount
        received := char.received + 1
        receivedISK30 := char.receivedISK30 + donation.amount
        received30 := char.received30 + 1
        lastReceived :=
          if char.lastReceived.valid = false ∨
              char.lastReceived.time < donation.timestamp then
            { time := donation.timestamp, valid := true }
          else char.lastReceived }
  else char

/-- Embedding of `addToTotals` (character.go): applies the per-row update to
every row of every supplied list (the Go variadic `characters`). -/
def addToTotals (donation : Donation)
    (characters : List (List CharacterRow)) : List (List CharacterRow) :=
  characters.map (List.map (addToTotalsRow donation))

/-- The body of the per-character loop of `removeFromTotals` (character.go):
a matching donator gets only `DonatedISK30`/`Donated30` decremented; otherwise
a matching recipient gets only `ReceivedISK30`/`Received30` decremented. -/
def removeFromTotalsRow (donation : Donation) (char : CharacterRow) :
    CharacterRow :=
  if char.id = donation.donator then
    { char with
        donatedISK30 := char.donatedISK30 - donation.amount
        donated30 := char.donated30 - 1 }
  else if char.id = donation.recipient then
    { char with
        receivedISK30 := char.receivedISK30 - donation.amount
        received30 := char.received30 - 1 }
  else char

/-- Embedding of `removeFromTotals` (character.go): applies the per-row
removal to every row of every supplied list. -/
def removeFromTotals (donation : Donation)
    (characters : List (List CharacterRow)) : List (List CharacterRow) :=
  characters.map (List.map (removeFromTotalsRow donation))

/-- Modelled from the spec: `addToContractTotals` is not under `src/`; §4.3
of the design document says the additive contract operation mirrors the
additive donation with the contract's receiver in place of the recipient. -/
def addToContractTotalsRow (contract : Contract) (char : CharacterRow) :
    CharacterRow :=
  if char.id = contract.donator then
    { char with
        donatedISK := char.donatedISK + contract.amount
        donated := char.donated + 1
        donatedISK30 := char.donatedISK30 + contract.amount
        donated30 := char.donated30 + 1
        lastDonated :=
          if char.lastDonated.valid = false ∨
              char.lastDonated.time < contract.timestamp then
            { time := contract.timestamp, valid := true }
          else char.lastDonated }
  else if char.id = contract.receiver then
    { char with
        receivedISK := char.receivedISK + contract.amount
        received := char.received + 1
        receivedISK30 := char.receivedISK30 + contract.amount
        received30 := char.received30 + 1
        lastReceived :=
          if char.lastReceived.valid = false ∨
              char.lastReceived.time < contract.timestamp then
            { time := contract.timestamp, valid := true }
          else char.lastReceived }
  else char

/-- Modelled from the spec: `removeFromContractTotals` is not under `src/`;
§4.3 says the subtractive contract operation mirrors the subtractive
donation. -/
def removeFromContractTotalsRow (contract : Contract) (char : CharacterRow) :
    CharacterRow :=
  if char.id = contract.donator then
    { char with
        donatedISK30 := char.donatedISK30 - contract.amount
        donated30 := char.donated30 - 1 }
  else if char.id = contract.receiver then
    { char with
        receivedISK30 := char.receivedISK30 - contract.amount
        received30 := char.received30 - 1 }
  else char

/-- Embedding of `inInt32` (declared outside `src/`; used in character.go as
a membership test on the visited-character list). -/
def inInt32 (x : Int) (xs : List Int) : Bool := xs.contains x

/-- The in-memory state a `SaveCharacterDonations`/`SaveCharacterContracts`
call threads through its event loop: the `newCharacters`,
`updatedCharacters` and `allCharacters` locals of character.go. -/
structure BatchState where
  newCharacters : List CharacterRow
  updatedCharacters : List CharacterRow
  allCharacters : List Int
  deriving DecidableEq, Repr

/-- The initial empty slices of `SaveCharacterDonations` and
`SaveCharacterContracts`. -/
def initialBatchState : BatchState :=
  { newCharacters := [], updatedCharacters := [], allCharacters := [] }

/-- The body of the per-participant loop shared by `SaveCharacterDonations`
and `SaveCharacterContracts` (character.go): skip a character already seen in
this batch, otherwise record it and bind its affiliation, classifying the
resulting row as new or existing. `none` propagates the fatal
missing-affiliation condition. -/
def bindParticipant (store : Int → Except DBError CharacterRow)
    (affiliations : List Affiliation) (st : BatchState) (charID : Int) :
    Option BatchState :=
  if inInt32 charID st.allCharacters then some st
  else
    let st1 := { st with allCharacters := st.allCharacters ++ [charID] }
    match bindAffiliation store charID affiliations with
    | none => none
    | some (char, true) =>
        some { st1 with newCharacters := st1.newCharacters ++ [char] }
    | some (char, false) =>
        some { st1 with updatedCharacters := st1.updatedCharacters ++ [char] }

/-- One iteration of the donation loop of `SaveCharacterDonations`
(character.go): bind both participants, then apply
`addToTotals`/`removeFromTotals` to the new and updated row lists. -/
def processDonation (store : Int → Except DBError CharacterRow)
    (affiliations : List Affiliation) (addition : Bool) (st : BatchState)
    (donation : Donation) : Option BatchState :=
  match bindParticipant store affiliations st donation.donator with
  | none => none
  | some st1 =>
      match bindParticipant store affiliations st1 donation.recipient with
      | none => none
      | some st2 =>
          if addition then
            some { st2 with
                     newCharacters :=
                       st2.newCharacters.map (addToTotalsRow donation)
                     updatedCharacters :=
                       st2.updatedCharacters.map (addToTotalsRow donation) }
          else
            some { st2 with
                     newCharacters :=
                       st2.newCharacters.map (removeFromTotalsRow donation)
                     updatedCharacters :=
                       st2.updatedCharacters.map (removeFromTotalsRow donation) }

/-- The donation loop of `SaveCharacterDonations` (character.go), with the
fatal missing-affiliation condition propagated as `none`. -/
def processDonations (store : Int → Except DBError CharacterRow)
    (affiliations : List Affiliation) (addition : Bool) :
    BatchState → List Donation → Option BatchState
  | st, [] => some st
  | st, donation :: rest =>
      match processDonation store affiliations addition st donation with
      | none => none
      | some st1 => processDonations store affiliations addition st1 rest

/-- One iteration of the contract loop of `SaveCharacterContracts`
(character.go): an unaccepted contract is skipped entirely (`continue`);
otherwise bind both participants and apply the contract totals. -/
def processContract (store : Int → Except DBError CharacterRow)
    (affiliations : List Affiliation) (addition : Bool) (st : BatchState)
    (contract : Contract) : Option BatchState :=
  if contract.accepted = false then some st
  else
    match bindParticipant store affiliations st contract.donator with
    | none => none
    | some st1 =>
        match bindParticipant store affiliations st1 contract.receiver with
        | none => none
        | some st2 =>
            if addition then
              some { st2 with
                       newCharacters :=
                         st2.newCharacters.map (addToContractTotalsRow contract)
                       updatedCharacters :=
                         st2.updatedCharacters.map
                           (addToContractTotalsRow contract) }
            else
              some { st2 with
                       newCharacters :=
                         st2.newCharacters.map
                           (removeFromContractTotalsRow contract)
                       updatedCharacters :=
                         st2.updatedCharacters.map
                           (removeFromContractTotalsRow contract) }

/-- The contract loop of `SaveCharacterContracts` (character.go). -/
def processContracts (store : Int → Except DBError CharacterRow)
    (affiliations : List Affiliation) (addition : Bool) :
    BatchState → List Contract → Option BatchState
  | st, [] => some st
  | st, contract :: rest =>
      match processContract store affiliations addition st contract with
      | none => none
      | some st1 => processContracts store affiliations addition st1 rest

/-- The committed rows and failed IDs produced by `saveCharacters`
(character.go): `committed` is the state of the durable store side effect (a
write whose insert/update call returned no error), `failedChars` the
collected IDs of rows that failed to persist. -/
structure StoreOutcome where
  committed : List CharacterRow
  failedChars : List Int
  deriving DecidableEq, Repr

/-- One iteration of either persistence loop of `saveCharacters`
(character.go): on error the character ID joins `failedChars` and the loop
continues, otherwise the row is committed. `fails` says whether the
insert/update call for a row errors. -/
def persistRow (fails : CharacterRow → Bool) (outcome : StoreOutcome)
    (char : CharacterRow) : StoreOutcome :=
  if fails char then
    { outcome with failedChars := outcome.failedChars ++ [char.id] }
  else
    { outcome with committed := outcome.committed ++ [char] }

/-- Embedding of `saveCharacters` (character.go): insert every new row, then
update every existing row, continuing past individual failures; return `none`
(nil error) when nothing failed, otherwise the aggregate error naming the
failed character IDs. -/
def saveCharacters (insertFails updateFails : CharacterRow → Bool)
    (newCharacters updatedCharacters : List CharacterRow) :
    StoreOutcome × Option (List Int) :=
  let o1 := newCharacters.foldl (persistRow insertFails)
    { committed := [], failedChars := [] }
  let o2 := updatedCharacters.foldl (persistRow updateFails) o1
  (o2, if o2.failedChars = [] then none else some o2.failedChars)

/-- Embedding of `SaveCharacterDonations` (character.go): run the donation
loop from empty state, then commit; `none` is the fatal missing-affiliation
abort, `some (outcome, err)` the committed writes and the aggregate error
(`none` meaning nil). -/
def SaveCharacterDonations (store : Int → Except DBError CharacterRow)
    (insertFails updateFails : CharacterRow → Bool)
    (donations : List Donation) (affiliations : List Affiliation)
    (addition : Bool) : Option (StoreOutcome × Option (List Int)) :=
  match processDonations store affiliations addition initialBatchState
      donations with
  | none => none
  | some st =>
      some (saveCharacters insertFails updateFails st.newCharacters
        st.updatedCharacters)

/-- Embedding of `SaveCharacterContracts` (character.go). -/
def SaveCharacterContracts (store : Int → Except DBError CharacterRow)
    (insertFails updateFails : CharacterRow → Bool)
    (contracts : List Contract) (affiliations : List Affiliation)
    (addition : Bool) : Option (StoreOutcome × Option (List Int)) :=
  match processContracts store affiliations addition initialBatchState
      contracts with
  | none => none
  | some st =>
      some (saveCharacters insertFails updateFails st.newCharacters
        st.updatedCharacters)

/-- Claim C2: for any donation event and any starting row, applying the event
additively and then subtractively leaves the four 30-day fields (Donated30,
DonatedISK30, Received30, ReceivedISK30) exactly equal to their starting
values, while the four lifetime fields equal those of the additive
application alone. -/
theorem add_then_remove_restores_window (donation : Donation)
    (char : CharacterRow) :
    (removeFromTotalsRow donation (addToTotalsRow donation char)).donated30
        = char.donated30 ∧
    (removeFromTotalsRow donation (addToTotalsRow donation char)).donatedISK30
        = char.donatedISK30 ∧
    (removeFromTotalsRow donation (addToTotalsRow donation char)).received30
        = char.received30 ∧
    (removeFromTotalsRow donation (addToTotalsRow donation char)).receivedISK30
        = char.receivedISK30 ∧
    (removeFromTotalsRow donation (addToTotalsRow donation char)).donated
        = (addToTotalsRow donation char).donated ∧
    (removeFromTotalsRow donation (addToTotalsRow donation char)).donatedISK
        = (addToTotalsRow donation char).donatedISK ∧
    (removeFromTotalsRow donation (addToTotalsRow donation char)).received
        = (addToTotalsRow donation char).received ∧
    (removeFromTotalsRow donation (addToTotalsRow donation char)).receivedISK
        = (addToTotalsRow donation char).receivedISK := by
  by_cases h1 : char.id = donation.donator
  · simp [addToTotalsRow, removeFromTotalsRow, h1]
  · by_cases h2 : char.id = donation.recipient
    · have h3 : ¬donation.recipient = donation.donator := fun h =>
        h1 (h2.trans h)
      simp [addToTotalsRow, removeFromTotalsRow, h1, h2, h3]
    · simp [addToTotalsRow, removeFromTotalsRow, h1, h2]

/-- Claim C3: for every donation event and every row, subtractive application
decrements only the 30-day count and value fields (by count 1 and value
amount, for the matching participant); the lifetime totals, both
last-timestamps, and every other field are unchanged. -/
theorem remove_from_totals_frame (donation : Donation) (char : CharacterRow) :
    ((removeFromTotalsRow donation char).id = char.id ∧
     (removeFromTotalsRow donation char).corporationID = char.corporationID ∧
     (removeFromTotalsRow donation char).allianceID = char.allianceID ∧
     (removeFromTotalsRow donation char).donated = char.donated ∧
     (removeFromTotalsRow donation char).donatedISK = char.donatedISK ∧
     (removeFromTotalsRow donation char).received = char.received ∧
     (removeFromTotalsRow donation char).receivedISK = char.receivedISK ∧
     (removeFromTotalsRow donation char).lastDonated = char.lastDonated ∧
     (removeFromTotalsRow donation char).lastReceived = char.lastReceived ∧
     (removeFromTotalsRow donation char).goodStanding = char.goodStanding) ∧
    (char.id = donation.donator →
      (removeFromTotalsRow donation char).donated30 = char.donated30 - 1 ∧
      (removeFromTotalsRow donation char).donatedISK30
          = char.donatedISK30 - donation.amount ∧
      (removeFromTotalsRow donation char).received30 = char.received30 ∧
      (removeFromTotalsRow donation char).receivedISK30
          = char.receivedISK30) ∧
    (char.id ≠ donation.donator → char.id = donation.recipient →
      (removeFromTotalsRow donation char).received30 = char.received30 - 1 ∧
      (removeFromTotalsRow donation char).receivedISK30
          = char.receivedISK30 - donation.amount ∧
      (removeFromTotalsRow donation char).donated30 = char.donated30 ∧
      (removeFromTotalsRow donation char).donatedISK30
          = char.donatedISK30) ∧
    (char.id ≠ donation.donator → char.id ≠ donation.recipient →
      removeFromTotalsRow donation char = char) := by
  by_cases h1 : char.id = donation.donator
  · simp [removeFromTotalsRow, h1]
  · by_cases h2 : char.id = donation.recipient
    · have h3 : ¬donation.recipient = donation.donator := fun h =>
        h1 (h2.trans h)
      simp [removeFromTotalsRow, h1, h2, h3]
    · simp [removeFromTotalsRow, h1, h2]

/-- Concrete donation for the claim C3 witness. -/
def c3Donation : Donation :=
  { donator := 7, recipient := 9, amount := 3, timestamp := 50 }

/-- Concrete starting row for the claim C3 witness: the donator of
`c3Donation`. -/
def c3Row : CharacterRow :=
  { emptyCharacterRow with id := 7, donated30 := 4, donatedISK30 := 10 }

/-- Witness for claim C3 at a concrete donator row. -/
theorem remove_from_totals_frame_witness :
    (removeFromTotalsRow c3Donation c3Row).donated30 = c3Row.donated30 - 1 ∧
    (removeFromTotalsRow c3Donation c3Row).donatedISK30
        = c3Row.donatedISK30 - c3Donation.amount ∧
    (removeFromTotalsRow c3Donation c3Row).received30 = c3Row.received30 ∧
    (removeFromTotalsRow c3Donation c3Row).receivedISK30
        = c3Row.receivedISK30 :=
  (remove_from_totals_frame c3Donation c3Row).2.1 (by decide)

/-- Claim C9: for a donation whose donator equals its recipient, additive
application updates only the donated-side fields of that row; the
received-side fields and lastReceived are unchanged, because the participant
match tests the donator role first and exclusively. -/
theorem self_donation_updates_donated_side_only (donation : Donation)
    (char : CharacterRow) (_hself : donation.donator = donation.recipient)
    (hid : char.id = donation.donator) :
    (addToTotalsRow donation char).received = char.received ∧
    (addToTotalsRow donation char).receivedISK = char.receivedISK ∧
    (addToTotalsRow donation char).received30 = char.received30 ∧
    (addToTotalsRow donation char).receivedISK30 = char.receivedISK30 ∧
    (addToTotalsRow donation char).lastReceived = char.lastReceived ∧
    (addToTotalsRow donation char).donated = char.donated + 1 ∧
    (addToTotalsRow donation char).donatedISK
        = char.donatedISK + donation.amount ∧
    (addToTotalsRow donation char).donated30 = char.donated30 + 1 ∧
    (addToTotalsRow donation char).donatedISK30
        = char.donatedISK30 + donation.amount ∧
    (addToTotalsRow donation char).lastDonated =
      (if char.lastDonated.valid = false ∨
          char.lastDonated.time < donation.timestamp then
        { time := donation.timestamp, valid := true }
      else char.lastDonated) := by
  simp [addToTotalsRow, hid]

/-- Concrete self-donation for the claim C9 witness. -/
def c9Donation : Donation :=
  { donator := 7, recipient := 7, amount := 3, timestamp := 5 }

/-- Concrete row for the claim C9 witness. -/
def c9Row : CharacterRow := { emptyCharacterRow with id := 7 }

/-- Witness for claim C9 at a concrete self-donation. -/
theorem self_donation_updates_donated_side_only_witness :
    (addToTotalsRow c9Donation c9Row).received = c9Row.received ∧
    (addToTotalsRow c9Donation c9Row).receivedISK = c9Row.receivedISK ∧
    (addToTotalsRow c9Donation c9Row).received30 = c9Row.received30 ∧
    (addToTotalsRow c9Donation c9Row).receivedISK30 = c9Row.receivedISK30 ∧
    (addToTotalsRow c9Donation c9Row).lastReceived = c9Row.lastReceived ∧
    (addToTotalsRow c9Donation c9Row).donated = c9Row.donated + 1 ∧
    (addToTotalsRow c9Donation c9Row).donatedISK
        = c9Row.donatedISK + c9Donation.amount ∧
    (addToTotalsRow c9Donation c9Row).donated30 = c9Row.donated30 + 1 ∧
    (addToTotalsRow c9Donation c9Row).donatedISK30
        = c9Row.donatedISK30 + c9Donation.amount ∧
    (addToTotalsRow c9Donation c9Row).lastDonated =
      (if c9Row.lastDonated.valid = false ∨
          c9Row.lastDonated.time < c9Donation.timestamp then
        { time := c9Donation.timestamp, valid := true }
      else c9Row.lastDonated) :=
  self_donation_updates_donated_side_only c9Donation c9Row (by decide)
    (by decide)

/-- Concrete starting row for the claim C7 counterexample: its stored
last-donated timestamp (10) is already later than both events. -/
def c7Row : CharacterRow :=
  { emptyCharacterRow with
      id := 1
      lastDonated := { time := 10, valid := true } }

/-- First donation event (timestamp 1) for claim C7. -/
def c7FirstDonation : Donation :=
  { donator := 1, recipient := 2, amount := 0, timestamp := 1 }

/-- Second donation event (timestamp 5) for claim C7. -/
def c7SecondDonation : Donation :=
  { donator := 1, recipient := 2, amount := 0, timestamp := 5 }

/-- Counterexample to claim C7 as stated: two donation events with
timestamps 1 < 5 applied additively (in either order) to a donator row whose
stored last-donated timestamp is 10 leave lastDonated = 10, not the claimed
T2 = 5, because the accumulator only ever advances the timestamp. -/
theorem c7_counterexample :
    c7FirstDonation.timestamp < c7SecondDonation.timestamp ∧
    c7Row.id = c7FirstDonation.donator ∧
    c7Row.id = c7SecondDonation.donator ∧
    (addToTotalsRow c7SecondDonation
        (addToTotalsRow c7FirstDonation c7Row)).lastDonated ≠
      { time := c7SecondDonation.timestamp, valid := true } ∧
    (addToTotalsRow c7FirstDonation
        (addToTotalsRow c7SecondDonation c7Row)).lastDonated ≠
      { time := c7SecondDonation.timestamp, valid := true } ∧
    (addToTotalsRow c7SecondDonation
        (addToTotalsRow c7FirstDonation c7Row)).lastDonated =
      { time := 10, valid := true } := by
  decide

/-- Applying an event to its donator's row leaves the row ID unchanged. -/
theorem addToTotalsRow_id (d : Donation) (c : CharacterRow) :
    (addToTotalsRow d c).id = c.id := by
  unfold addToTotalsRow
  split_ifs <;> rfl

/-- On the donator's row the last-donated timestamp becomes the event's
timestamp exactly when the stored value is absent or earlier. -/
theorem addToTotalsRow_lastDonated (d : Donation) (c : CharacterRow)
    (h : c.id = d.donator) :
    (addToTotalsRow d c).lastDonated =
      (if c.lastDonated.valid = false ∨ c.lastDonated.time < d.timestamp then
        { time := d.timestamp, valid := true }
      else c.lastDonated) := by
  simp [addToTotalsRow, h]

/-- Claim C7 (amended): applying two donation events with timestamps
T1 < T2 additively to the same donator row, in either order, leaves
lastDonated = T2, provided the row's stored last-donated timestamp is absent
or earlier than T2. -/
theorem monotonic_last_donated (char : CharacterRow) (d1 d2 : Donation)
    (h1 : char.id = d1.donator) (h2 : char.id = d2.donator)
    (hlt : d1.timestamp < d2.timestamp)
    (hstart : char.lastDonated.valid = false ∨
      char.lastDonated.time < d2.timestamp) :
    (addToTotalsRow d2 (addToTotalsRow d1 char)).lastDonated =
      { time := d2.timestamp, valid := true } ∧
    (addToTotalsRow d1 (addToTotalsRow d2 char)).lastDonated =
      { time := d2.timestamp, valid := true } := by
  constructor
  · have hid1 : (addToTotalsRow d1 char).id = d2.donator := by
      rw [addToTotalsRow_id, h2]
    rw [addToTotalsRow_lastDonated d2 (addToTotalsRow d1 char) hid1,
      addToTotalsRow_lastDonated d1 char h1]
    by_cases hp1 : char.lastDonated.valid = false ∨
        char.lastDonated.time < d1.timestamp
    · simp only [if_pos hp1]
      have hcond : (NullTime.mk d1.timestamp true).valid = false ∨
          (NullTime.mk d1.timestamp true).time < d2.timestamp := Or.inr hlt
      rw [if_pos hcond]
    · simp only [if_neg hp1]
      rw [if_pos hstart]
  · have hid2 : (addToTotalsRow d2 char).id = d1.donator := by
      rw [addToTotalsRow_id, h1]
    rw [addToTotalsRow_lastDonated d1 (addToTotalsRow d2 char) hid2,
      addToTotalsRow_lastDonated d2 char h2]
    simp only [if_pos hstart]
    have hcond : ¬((NullTime.mk d2.timestamp true).valid = false ∨
        (NullTime.mk d2.timestamp true).time < d1.timestamp) := by
      simp only [NullTime.mk.injEq]
      push_neg
      exact ⟨fun hf => by simp at hf, by omega⟩
    rw [if_neg hcond]

/-- Concrete starting row for the claim C7 witness: no stored last-donated
timestamp. -/
def c7WitnessRow : CharacterRow := { emptyCharacterRow with id := 1 }

/-- Witness for the amended claim C7 at concrete inputs. -/
theorem monotonic_last_donated_witness :
    (addToTotalsRow c7SecondDonation
        (addToTotalsRow c7FirstDonation c7WitnessRow)).lastDonated =
      { time := c7SecondDonation.timestamp, valid := true } ∧
    (addToTotalsRow c7FirstDonation
        (addToTotalsRow c7SecondDonation c7WitnessRow)).lastDonated =
      { time := c7SecondDonation.timestamp, valid := true } :=
  monotonic_last_donated c7WitnessRow c7FirstDonation c7SecondDonation
    (by decide) (by decide) (by decide) (Or.inl (by decide))

/-- Claim C4: for every contract event with accepted = false, applying it in
either additive or subtractive mode leaves the batch state untouched — every
row's ten counters and both timestamps unchanged — and binds no new identity
row. -/
theorem unaccepted_contract_noop (store : Int → Except DBError CharacterRow)
    (affiliations : List Affiliation) (addition : Bool) (st : BatchState)
    (contract : Contract) (h : contract.accepted = false) :
    processContract store affiliations addition st contract = some st := by
  simp [processContract, h]

/-- Concrete unaccepted contract for the claim C4 witness. -/
def c4Contract : Contract :=
  { donator := 1, receiver := 2, amount := 5, timestamp := 3,
    accepted := false }

/-- Concrete batch state for the claim C4 witness. -/
def c4State : BatchState :=
  { newCharacters := [{ emptyCharacterRow with id := 1 }]
    updatedCharacters := []
    allCharacters := [1] }

/-- Witness for claim C4: the unaccepted contract is a no-op in both modes on
a concrete non-empty state. -/
theorem unaccepted_contract_noop_witness :
    processContract (fun _ => Except.error DBError.notFound) [] true c4State
        c4Contract = some c4State ∧
    processContract (fun _ => Except.error DBError.notFound) [] false c4State
        c4Contract = some c4State :=
  ⟨unaccepted_contract_noop (fun _ => Except.error DBError.notFound) [] true
      c4State c4Contract rfl,
    unaccepted_contract_noop (fun _ => Except.error DBError.notFound) [] false
      c4State c4Contract rfl⟩

/-- Claim C10: whenever the store lookup fails with any error whatsoever —
not only the row-not-found case — the affiliation binder classifies the
identity as new and builds a fresh zero-valued row (with only the ID and the
supplied affiliation set), instead of propagating the error. -/
theorem load_error_is_new (store : Int → Except DBError CharacterRow)
    (charID : Int) (affiliations : List Affiliation) (aff : Affiliation)
    (e : DBError) (haff : getAffiliation charID affiliations = some aff)
    (herr : store charID = .error e) :
    bindAffiliation store charID affiliations =
      some
        (match aff.alliance with
          | some alliance =>
              { emptyCharacterRow with
                  id := charID
                  corporationID := aff.corporation.id
                  allianceID := alliance.id }
          | none =>
              { emptyCharacterRow with
                  id := charID
                  corporationID := aff.corporation.id },
          true) := by
  unfold bindAffiliation GetCharacter
  rw [haff, herr]

/-- Concrete store for the claim C10 witness: every lookup fails with the
transient (non-not-found) error. -/
def c10Store : Int → Except DBError CharacterRow :=
  fun _ => Except.error DBError.failure

/-- Concrete affiliation list for the claim C10 witness. -/
def c10Affiliations : List Affiliation :=
  [⟨⟨100, ""⟩, ⟨10, ""⟩, none⟩]

/-- Witness for claim C10: a transient storage failure routes a zeroed row to
the insert path. -/
theorem load_error_is_new_witness :
    bindAffiliation c10Store 100 c10Affiliations =
      some ({ emptyCharacterRow with id := 100, corporationID := 10 },
        true) :=
  load_error_is_new c10Store 100 c10Affiliations ⟨⟨100, ""⟩, ⟨10, ""⟩, none⟩
    DBError.failure (by decide) rfl

/-- The stored row for the claim C1 failing input: an accumulated donated
value of 12.345 that a 2-decimal projection cannot represent. -/
def c1StoredRow : CharacterRow :=
  { emptyCharacterRow with
      id := 100
      donatedISK := 12345 / 1000 }

/-- Store for the claim C1 failing input: identity 100 exists with the
unrounded accumulated value. -/
def c1Store : Int → Except DBError CharacterRow :=
  fun charID => if charID = 100 then Except.ok c1StoredRow
    else Except.error DBError.notFound

/-- Affiliations for the claim C1 failing input. -/
def c1Affiliations : List Affiliation :=
  [⟨⟨100, ""⟩, ⟨10, ""⟩, none⟩]

/-- The subsequent additive event of 0.005 for the claim C1 failing input. -/
def c1Donation : Donation :=
  { donator := 100, recipient := 200, amount := 5 / 1000, timestamp := 1 }

/-- The row the accumulator actually starts from for identity 100 under the
claim C1 failing input: the monetary sums have been rounded by the load
path. -/
def c1LoadedRow : CharacterRow :=
  { emptyCharacterRow with
      id := 100
      corporationID := 10
      donatedISK := 1235 / 100 }

/-- Claim C1 evaluated at the failing input: `bindAffiliation` loads the
existing row through `GetCharacter`, whose `toCharacter` conversion applies
`round2`, so the accumulator starts a subsequent additive application from
the rounded 12.35 — not from the unrounded stored 12.345 — and ends at
12.355 instead of the 12.35 the claim requires. The rounded read-facing
projection does feed back into accumulation. -/
theorem c1_rounding_feeds_back :
    bindAffiliation c1Store 100 c1Affiliations = some (c1LoadedRow, false) ∧
    c1LoadedRow.donatedISK = round2 c1StoredRow.donatedISK ∧
    round2 c1StoredRow.donatedISK ≠ c1StoredRow.donatedISK ∧
    (addToTotalsRow c1Donation c1LoadedRow).donatedISK = 12355 / 1000 ∧
    (12355 / 1000 : ℚ) ≠ c1StoredRow.donatedISK + c1Donation.amount := by
  have hzero : round2 0 = 0 := by
    norm_num [round2, round_eq]
  have hround : round2 (12345 / 1000 : ℚ) = 1235 / 100 := by
    norm_num [round2, round_eq]
  have hstored : c1StoredRow.donatedISK = 12345 / 1000 := by
    simp [c1StoredRow, emptyCharacterRow]
  refine ⟨?_, ?_, ?_, ?_, ?_⟩
  · simp [bindAffiliation, GetCharacter, c1Store, c1Affiliations,
      getAffiliation, CharacterRow.toCharacter, Character.toRow, c1StoredRow,
      c1LoadedRow, emptyCharacterRow, hround, hzero]
  · rw [hstored, hround]
    simp [c1LoadedRow, emptyCharacterRow]
  · rw [hstored, hround]
    norm_num
  · norm_num [addToTotalsRow, c1Donation, c1LoadedRow, emptyCharacterRow]
  · rw [hstored]
    norm_num [c1Donation]

/-- Either persistence loop of `saveCharacters` commits exactly the rows
whose write succeeds and collects, in order, exactly the IDs of those whose
write fails. -/
theorem foldl_persistRow (fails : CharacterRow → Bool)
    (chars : List CharacterRow) (acc : StoreOutcome) :
    chars.foldl (persistRow fails) acc =
      { committed := acc.committed ++ chars.filter (fun c => !fails c)
        failedChars := acc.failedChars ++
          (chars.filter (fun c => fails c)).map CharacterRow.id } := by
  induction chars generalizing acc with
  | nil => simp
  | cons c rest ih =>
      by_cases h : fails c
      · simp [List.foldl_cons, persistRow, h, ih, List.filter_cons]
      · simp [List.foldl_cons, persistRow, h, ih, List.filter_cons]

/-- Claim C5: `saveCharacters` persists every new row via insert and every
existing row via update, continuing past individual failures; the committed
writes are exactly the successful ones regardless of other rows' failures;
it returns nil exactly when nothing failed, and otherwise a single aggregate
error naming exactly the identity IDs of the rows that failed. -/
theorem saveCharacters_best_effort
    (insertFails updateFails : CharacterRow → Bool)
    (newCharacters updatedCharacters : List CharacterRow) :
    (saveCharacters insertFails updateFails newCharacters
        updatedCharacters).1.committed =
      newCharacters.filter (fun c => !insertFails c) ++
        updatedCharacters.filter (fun c => !updateFails c) ∧
    (saveCharacters insertFails updateFails newCharacters
        updatedCharacters).1.failedChars =
      (newCharacters.filter (fun c => insertFails c)).map CharacterRow.id ++
        (updatedCharacters.filter (fun c => updateFails c)).map
          CharacterRow.id ∧
    ((saveCharacters insertFails updateFails newCharacters
        updatedCharacters).2 = none ↔
      (newCharacters.filter (fun c => insertFails c)).map CharacterRow.id ++
        (updatedCharacters.filter (fun c => updateFails c)).map
          CharacterRow.id = []) ∧
    ((saveCharacters insertFails updateFails newCharacters
        updatedCharacters).2 = none ∨
      (saveCharacters insertFails updateFails newCharacters
          updatedCharacters).2 =
        some ((saveCharacters insertFails updateFails newCharacters
          updatedCharacters).1.failedChars)) := by
  simp only [saveCharacters, foldl_persistRow, List.nil_append]
  refine ⟨trivial, trivial, ?_, ?_⟩
  · constructor
    · intro h
      by_contra hne
      rw [if_neg hne] at h
      cases h
    · intro h
      rw [if_pos h]
  · by_cases h : (newCharacters.filter (fun c => insertFails c)).map
        CharacterRow.id ++
        (updatedCharacters.filter (fun c => updateFails c)).map
          CharacterRow.id = []
    · exact Or.inl (by rw [if_pos h])
    · exact Or.inr (by rw [if_neg h])

/-- Every identity already recorded in a batch state's visited list has a
supplied affiliation (the invariant that lets a missing affiliation always
reach the fatal branch). -/
def affiliationsCover (affiliations : List Affiliation)
    (st : BatchState) : Prop :=
  ∀ charID ∈ st.allCharacters, getAffiliation charID affiliations ≠ none

/-- A successful bind implies the identity had an affiliation. -/
theorem bindAffiliation_hasAff (store : Int → Except DBError CharacterRow)
    (charID : Int) (affiliations : List Affiliation)
    (rc : CharacterRow × Bool)
    (h : bindAffiliation store charID affiliations = some rc) :
    getAffiliation charID affiliations ≠ none := by
  intro hnone
  unfold bindAffiliation at h
  rw [hnone] at h
  cases h

/-- `bindParticipant` preserves the affiliation-coverage invariant. -/
theorem bindParticipant_cover (store : Int → Except DBError CharacterRow)
    (affiliations : List Affiliation) (st : BatchState) (charID : Int)
    (st1 : BatchState) (hcov : affiliationsCover affiliations st)
    (h : bindParticipant store affiliations st charID = some st1) :
    affiliationsCover affiliations st1 := by
  unfold bindParticipant at h
  by_cases hin : inInt32 charID st.allCharacters
  · rw [if_pos hin] at h
    cases h
    exact hcov
  · rw [if_neg hin] at h
    rcases haff : bindAffiliation store charID affiliations with _ | ⟨char, b⟩
    · rw [haff] at h
      cases h
    · have hsome := bindAffiliation_hasAff store charID affiliations
        (char, b) haff
      rw [haff] at h
      cases b
      · cases h
        intro x hx
        rcases List.mem_append.mp hx with hx1 | hx2
        · exact hcov x hx1
        · rw [List.mem_singleton.mp hx2]
          exact hsome
      · cases h
        intro x hx
        rcases List.mem_append.mp hx with hx1 | hx2
        · exact hcov x hx1
        · rw [List.mem_singleton.mp hx2]
          exact hsome

/-- Under the coverage invariant, a participant with no supplied affiliation
makes `bindParticipant` abort. -/
theorem bindParticipant_none (store : Int → Except DBError CharacterRow)
    (affiliations : List Affiliation) (st : BatchState) (charID : Int)
    (hcov : affiliationsCover affiliations st)
    (hmiss : getAffiliation charID affiliations = none) :
    bindParticipant store affiliations st charID = none := by
  unfold bindParticipant
  have hin : ¬inInt32 charID st.allCharacters := by
    intro hc
    exact hcov charID (by simpa [inInt32] using hc) hmiss
  rw [if_neg hin]
  unfold bindAffiliation
  rw [hmiss]

/-- `processDonation` preserves the affiliation-coverage invariant. -/
theorem processDonation_cover (store : Int → Except DBError CharacterRow)
    (affiliations : List Affiliation) (addition : Bool) (st : BatchState)
    (donation : Donation) (st2 : BatchState)
    (hcov : affiliationsCover affiliations st)
    (h : processDonation store affiliations addition st donation
      = some st2) : affiliationsCover affiliations st2 := by
  unfold processDonation at h
  rcases hb1 : bindParticipant store affiliations st donation.donator with
    _ | sta
  · rw [hb1] at h
    cases h
  · rw [hb1] at h
    dsimp only at h
    have hcov1 := bindParticipant_cover store affiliations st donation.donator
      sta hcov hb1
    rcases hb2 : bindParticipant store affiliations sta donation.recipient with
      _ | stb
    · rw [hb2] at h
      cases h
    · rw [hb2] at h
      dsimp only at h
      have hcov2 := bindParticipant_cover store affiliations sta
        donation.recipient stb hcov1 hb2
      cases addition
      · rw [if_neg (by simp)] at h
        cases h
        exact hcov2
      · rw [if_pos rfl] at h
        cases h
        exact hcov2

/-- Under the coverage invariant, a donation with an uncovered participant
makes `processDonation` abort. -/
theorem processDonation_none (store : Int → Except DBError CharacterRow)
    (affiliations : List Affiliation) (addition : Bool) (st : BatchState)
    (donation : Donation) (hcov : affiliationsCover affiliations st)
    (hmiss : getAffiliation donation.donator affiliations = none ∨
      getAffiliation donation.recipient affiliations = none) :
    processDonation store affiliations addition st donation = none := by
  unfold processDonation
  rcases hmiss with hd | hr
  · rw [bindParticipant_none store affiliations st donation.donator hcov hd]
  · rcases hb1 : bindParticipant store affiliations st donation.donator with
      _ | sta
    · rfl
    · have hcov1 := bindParticipant_cover store affiliations st
        donation.donator sta hcov hb1
      dsimp only
      rw [bindParticipant_none store affiliations sta donation.recipient
        hcov1 hr]

/-- Under the coverage invariant, a batch containing a donation with an
uncovered participant aborts. -/
theorem processDonations_none (store : Int → Except DBError CharacterRow)
    (affiliations : List Affiliation) (addition : Bool)
    (donations : List Donation) (st : BatchState) (d : Donation)
    (hcov : affiliationsCover affiliations st) (hd : d ∈ donations)
    (hmiss : getAffiliation d.donator affiliations = none ∨
      getAffiliation d.recipient affiliations = none) :
    processDonations store affiliations addition st donations = none := by
  induction donations generalizing st with
  | nil => cases hd
  | cons x rest ih =>
      rcases List.mem_cons.mp hd with rfl | hmem
      · unfold processDonations
        rw [processDonation_none store affiliations addition st d hcov hmiss]
      · unfold processDonations
        rcases hx : processDonation store affiliations addition st x with
          _ | st1
        · rfl
        · have hcov1 := processDonation_cover store affiliations addition st
            x st1 hcov hx
          exact ih st1 hcov1 hmem

/-- Claim C6: if any event in the batch references an identity for which the
supplied affiliations list contains no entry, `SaveCharacterDonations`
aborts immediately (the embedded fatal condition), with no soft error path:
no commit outcome is produced at all. -/
theorem missing_affiliation_is_fatal
    (store : Int → Except DBError CharacterRow)
    (insertFails updateFails : CharacterRow → Bool)
    (donations : List Donation) (affiliations : List Affiliation)
    (addition : Bool) (d : Donation) (hd : d ∈ donations)
    (hmiss : getAffiliation d.donator affiliations = none ∨
      getAffiliation d.recipient affiliations = none) :
    SaveCharacterDonations store insertFails updateFails donations
      affiliations addition = none := by
  unfold SaveCharacterDonations
  rw [processDonations_none store affiliations addition donations
    initialBatchState d (by intro x hx; cases hx) hd hmiss]

/-- Concrete donation for the claim C6 witness; no affiliations are
supplied at all. -/
def c6Donation : Donation :=
  { donator := 1, recipient := 2, amount := 5, timestamp := 3 }

/-- Witness for claim C6: a batch whose only donation references identities
with no supplied affiliation aborts in both modes. -/
theorem missing_affiliation_is_fatal_witness :
    SaveCharacterDonations (fun _ => Except.error DBError.notFound)
        (fun _ => false) (fun _ => false) [c6Donation] [] true = none :=
  missing_affiliation_is_fatal (fun _ => Except.error DBError.notFound)
    (fun _ => false) (fun _ => false) [c6Donation] [] true c6Donation
    (List.mem_singleton.mpr rfl) (Or.inl rfl)

/-- Store for the claim C8 scenario: both identities are new. -/
def c8Store : Int → Except DBError CharacterRow :=
  fun _ => Except.error DBError.notFound

/-- A persistence layer in which every write succeeds. -/
def noWriteFailure : CharacterRow → Bool := fun _ => false

/-- Affiliations for the claim C8 scenario: 100 in corporation 10 and 200 in
corporation 20, no alliance. -/
def c8Affiliations : List Affiliation :=
  [⟨⟨100, ""⟩, ⟨10, ""⟩, none⟩, ⟨⟨200, ""⟩, ⟨20, ""⟩, none⟩]

/-- The single donation of the claim C8 scenario. -/
def c8Donation (T : Int) : Donation :=
  { donator := 100, recipient := 200, amount := 500, timestamp := T }

/-- Expected donator row of the claim C8 scenario. -/
def c8DonatorRow (T : Int) : CharacterRow :=
  { emptyCharacterRow with
      id := 100
      corporationID := 10
      donated := 1
      donatedISK := 500
      donated30 := 1
      donatedISK30 := 500
      lastDonated := { time := T, valid := true } }

/-- Expected recipient row of the claim C8 scenario. -/
def c8RecipientRow (T : Int) : CharacterRow :=
  { emptyCharacterRow with
      id := 200
      corporationID := 20
      received := 1
      receivedISK := 500
      received30 := 1
      receivedISK30 := 500
      lastReceived := { time := T, valid := true } }

/-- Claim C8: the batch with the single donation {donator = 100,
recipient = 200, amount = 500, timestamp = T}, both identities new and
affiliations {100 → corp 10, 200 → corp 20, no alliance}, produces exactly
two new rows — row 100 with donated = 1, donatedValue = 500, donated30 = 1,
donatedValue30 = 500, lastDonated = T, and row 200 symmetric on the received
side — both are committed, and the commit reports no error. -/
theorem c8_single_donation_batch (T : Int) :
    processDonations c8Store c8Affiliations true initialBatchState
        [c8Donation T] =
      some { newCharacters := [c8DonatorRow T, c8RecipientRow T]
             updatedCharacters := []
             allCharacters := [100, 200] } ∧
    SaveCharacterDonations c8Store noWriteFailure noWriteFailure
        [c8Donation T] c8Affiliations true =
      some ({ committed := [c8DonatorRow T, c8RecipientRow T]
              failedChars := [] }, none) := by
  have hloop : processDonations c8Store c8Affiliations true initialBatchState
      [c8Donation T] =
      some { newCharacters := [c8DonatorRow T, c8RecipientRow T]
             updatedCharacters := []
             allCharacters := [100, 200] } := by
    simp [processDonations, processDonation, bindParticipant, bindAffiliation,
      getAffiliation, GetCharacter, inInt32, c8Store, c8Affiliations,
      c8Donation, initialBatchState, emptyCharacterRow, addToTotalsRow,
      c8DonatorRow, c8RecipientRow]
  refine ⟨hloop, ?_⟩
  unfold SaveCharacterDonations
  rw [hloop]
  simp [saveCharacters, persistRow, noWriteFailure]

/-- Witness for claim C8 at the concrete timestamp 42. -/
theorem c8_single_donation_batch_witness :
    processDonations c8Store c8Affiliations true initialBatchState
        [c8Donation 42] =
      some { newCharacters := [c8DonatorRow 42, c8RecipientRow 42]
             updatedCharacters := []
             allCharacters := [100, 200] } ∧
    SaveCharacterDonations c8Store noWriteFailure noWriteFailure
        [c8Donation 42] c8Affiliations true =
      some ({ committed := [c8DonatorRow 42, c8RecipientRow 42]
              failedChars := [] }, none) :=
  c8_single_donation_batch 42
